import Mathlib

/-!
Shallow embedding of `multivpn.py`, a glue script that generates a
docker-compose manifest with one VPN/proxy service block per connection slot,
manages a credentials (.env) file, starts/stops the stack and cleans up.

Python-level effects are made explicit:
* the filesystem view of the OpenVPN configuration directory is a `DirState`
  (result of `os.path.exists`, `os.path.isdir`, `os.listdir`);
* `random.choice` on a non-empty list is modelled by an arbitrary `pick : Nat`
  taken modulo the list length;
* raised exceptions are `Except PyError`;
* file writes are returned as values instead of performed.
-/

set_option autoImplicit false

namespace MultiVPN

/-- The Python exceptions that the script can raise or catch. -/
inductive PyError where
  | fileNotFoundError (msg : String)
  | notADirectoryError (msg : String)
  | valueError (msg : String)
  | indexError (msg : String)
  | nameError (msg : String)
  deriving DecidableEq, Repr

/-- Outcome of `os.listdir(directory)`: a listing, `FileNotFoundError`, or
some other exception (both caught by `choose_random_file`). -/
inductive ListDirResult where
  | ok (files : List String)
  | fileNotFound
  | otherError (msg : String)
  deriving DecidableEq, Repr

/-- Python `s.startswith(p)`: `p` is a character-wise prefix of `s`. -/
def startswith (s p : String) : Bool :=
  List.isPrefixOf p.data s.data

/-- The loop in `choose_random_file` that keeps the file names matching the
optional name filter (`pfx is None or filename.startswith(pfx)`). -/
def matching_files (all_files : List String) (pfx : Option String) : List String :=
  all_files.filter fun filename =>
    match pfx with
    | none => true
    | some p => startswith filename p

/-- `choose_random_file(directory, prefix)` from multivpn.py lines 23-52.
`listing` is what `os.listdir` returned for the directory; `pick` models
the randomness of `random.choice` (any `pick : Nat`, reduced mod the number
of matching files). All exceptions are caught and give `none`. -/
def choose_random_file (listing : ListDirResult) (pfx : Option String) (pick : Nat) :
    Option String :=
  match listing with
  | .ok all_files =>
    let mf := matching_files all_files pfx
    if mf.isEmpty then none
    else mf[pick % mf.length]?
  | .fileNotFound => none
  | .otherError _ => none

/-- What the OS reports about the OpenVPN configuration directory:
`os.path.exists`, `os.path.isdir`, and the `os.listdir` outcome. -/
structure DirState where
  pathExists : Bool
  isDir : Bool
  listing : ListDirResult
  deriving DecidableEq, Repr

/-- The data interpolated into the gluetun service template
(multivpn.py lines 54-83). -/
structure GluetunService where
  vpn_number : Nat
  server_location : String
  env_file : String
  http_proxy_port : Nat
  socks5_proxy_port : Nat
  deriving DecidableEq, Repr

/-- `generate_gluetun_service(vpn_number, server_location, env_file)`:
pure template rendering, never raises. -/
def generate_gluetun_service (vpn_number : Nat) (server_location : String)
    (env_file : String) : GluetunService :=
  { vpn_number := vpn_number
    server_location := server_location
    env_file := env_file
    http_proxy_port := 8888 + vpn_number
    socks5_proxy_port := 1080 + vpn_number }

/-- The data interpolated into the openvpn-proxy service template
(multivpn.py lines 85-119). Note: no SOCKS5 port in this template. -/
structure OpenvpnProxyService where
  vpn_number : Nat
  openvpn_config_dir : String
  env_file : String
  openvpn_config_file : String
  local_network : String
  http_proxy_port : Nat
  deriving DecidableEq, Repr

/-- The filter argument passed to `choose_random_file` on line 92:
`prefix=server_location if server_location != "any" else None`. -/
def location_pfx (server_location : String) : Option String :=
  if server_location ≠ "any" then some server_location else none

/-- `generate_openvpn_proxy_service(vpn_number, server_location,
openvpn_config_dir, env_file)`. `d` is the OS view of `openvpn_config_dir`,
`local_ip` the first token of `hostname -I`, `pick` the randomness of the
configuration-file choice. The guard `if not openvpn_config_file` is also
taken when the chosen name is the empty string (Python falsiness). -/
def generate_openvpn_proxy_service (vpn_number : Nat) (server_location : String)
    (openvpn_config_dir : String) (d : DirState) (local_ip : String)
    (pick : Nat) (env_file : String) : Except PyError OpenvpnProxyService :=
  if d.pathExists = false then
    .error (.fileNotFoundError
      ("OpenVPN configuration directory " ++ openvpn_config_dir ++ " does not exist."))
  else if d.isDir = false then
    .error (.notADirectoryError (openvpn_config_dir ++ " is not a directory."))
  else
    match choose_random_file d.listing (location_pfx server_location) pick with
    | none =>
      .error (.fileNotFoundError
        ("No OpenVPN configuration file found for location " ++ server_location ++ "."))
    | some f =>
      if f = "" then
        .error (.fileNotFoundError
          ("No OpenVPN configuration file found for location " ++ server_location ++ "."))
      else
        .ok { vpn_number := vpn_number
              openvpn_config_dir := openvpn_config_dir
              env_file := env_file
              openvpn_config_file := f
              local_network := local_ip ++ "/24"
              http_proxy_port := 8888 + vpn_number }

/-- One service block of the combined manifest, from either template. -/
inductive ServiceBlock where
  | gluetun (s : GluetunService)
  | openvpnProxy (s : OpenvpnProxyService)
  deriving DecidableEq, Repr

/-- The host port numbers interpolated into a service block (its
`ports:` section): both proxy ports for gluetun, only the HTTP proxy
port for openvpn-proxy. -/
def ServiceBlock.embeddedPorts : ServiceBlock → List Nat
  | .gluetun s => [s.http_proxy_port, s.socks5_proxy_port]
  | .openvpnProxy s => [s.http_proxy_port]

/-- Loop body of `generate_combined_docker_compose` for slot `i`
(lines 128-136): dispatch on `method_choice`; `server_locations[i - 1]`
raises `IndexError` when out of range; unknown methods raise `ValueError`. -/
def compose_service_step (method_choice : String) (server_locations : List String)
    (env_file : String) (openvpn_config_dir : String) (d : DirState)
    (local_ip : Nat → String) (pick : Nat → Nat) (i : Nat) :
    Except PyError ServiceBlock :=
  if method_choice = "1" then
    match server_locations[i - 1]? with
    | none => .error (.indexError "list index out of range")
    | some loc => .ok (.gluetun (generate_gluetun_service i loc env_file))
  else if method_choice = "2" then
    match server_locations[i - 1]? with
    | none => .error (.indexError "list index out of range")
    | some loc =>
      (generate_openvpn_proxy_service i loc openvpn_config_dir d (local_ip i) (pick i)
        env_file).map ServiceBlock.openvpnProxy
  else
    .error (.valueError "Invalid method choice.")

/-- The `for i in range(1, num_connections + 1)` loop accumulating
`services.append(...)`, stopping at the first raised exception. -/
def compose_services_loop (step : Nat → Except PyError ServiceBlock) :
    Nat → Except PyError (List ServiceBlock)
  | 0 => .ok []
  | n + 1 =>
    match compose_services_loop step n with
    | .error e => .error e
    | .ok acc =>
      match step (n + 1) with
      | .error e => .error e
      | .ok s => .ok (acc ++ [s])

/-- The `services` list built by `generate_combined_docker_compose`
(multivpn.py lines 121-143) before it is joined and written. -/
def compose_services (num_connections : Nat) (method_choice : String)
    (server_locations : List String) (env_file : String) (openvpn_config_dir : String)
    (d : DirState) (local_ip : Nat → String) (pick : Nat → Nat) :
    Except PyError (List ServiceBlock) :=
  compose_services_loop
    (compose_service_step method_choice server_locations env_file openvpn_config_dir d
      local_ip pick)
    num_connections

/-- The rendered text of a gluetun service block (the f-string on
lines 59-82 of multivpn.py). -/
def GluetunService.render (s : GluetunService) : String :=
  let i := toString s.vpn_number
  let hp := toString s.http_proxy_port
  let sp := toString s.socks5_proxy_port
  "\n  gluetun_" ++ i ++ ":\n    image: qmcgaw/gluetun\n    container_name: gluetun_nordvpn_"
    ++ i ++ "\n    cap_add:\n      - NET_ADMIN\n    devices:\n      - /dev/net/tun\n    env_file:\n      - "
    ++ s.env_file ++ "\n    environment:\n      - VPN_SERVICE=nordvpn\n      - VPN_TYPE=openvpn\n      - SERVER_COUNTRIES="
    ++ s.server_location
    ++ "\n      - TZ=Europe/Berlin # Adjust as needed\n      - HTTPPROXY=on\n      - HTTPPROXY_PORT="
    ++ hp ++ "\n      - SOCKS5=on\n      - SOCKS5_PORT=" ++ sp
    ++ "\n    ports:\n      - \"" ++ hp ++ ":" ++ hp ++ "\" # HTTP Proxy\n      - \""
    ++ sp ++ ":" ++ sp ++ "\" # SOCKS5 Proxy\n    restart: unless-stopped\n"

/-- The rendered text of an openvpn-proxy service block (the f-string on
lines 99-118 of multivpn.py). -/
def OpenvpnProxyService.render (s : OpenvpnProxyService) : String :=
  let i := toString s.vpn_number
  let hp := toString s.http_proxy_port
  "\n  openvpn_proxy_" ++ i
    ++ ":\n    image: jonoh/openvpn-proxy\n    container_name: openvpn_proxy_nordvpn_"
    ++ i ++ "\n    cap_add:\n      - NET_ADMIN\n    devices:\n      - /dev/net/tun\n    volumes:\n      - "
    ++ s.openvpn_config_dir ++ ":/config/openvpn\n    env_file:\n      - " ++ s.env_file
    ++ "\n    environment:\n      - OPENVPN_CONFIG_FILE=/config/openvpn/" ++ s.openvpn_config_file
    ++ "\n      - LOCAL_NETWORK=" ++ s.local_network ++ " # Adjust as needed\n      - OPENVPN_PROXY_PORT="
    ++ hp ++ "\n    ports:\n      - \"" ++ hp ++ ":" ++ hp
    ++ "\" # HTTP Proxy\n    restart: unless-stopped\n"

/-- Rendered text of a service block. -/
def ServiceBlock.render : ServiceBlock → String
  | .gluetun s => s.render
  | .openvpnProxy s => s.render

/-- `generate_combined_docker_compose(num_connections, method_choice,
server_locations, env_file, openvpn_config_dir)`. The first component is
the file-write effect: `some content` when `compose_content` was written to
docker-compose.yml, `none` when an exception was raised first. On success
the function returns `(compose_file, env_file)`. -/
def generate_combined_docker_compose (num_connections : Nat) (method_choice : String)
    (server_locations : List String) (env_file : String) (openvpn_config_dir : String)
    (d : DirState) (local_ip : Nat → String) (pick : Nat → Nat) :
    Option String × Except PyError (String × String) :=
  match compose_services num_connections method_choice server_locations env_file
      openvpn_config_dir d local_ip pick with
  | .error e => (none, .error e)
  | .ok services =>
    let compose_content :=
      "services:\n" ++ String.intercalate "\n" (services.map ServiceBlock.render)
    (some compose_content, .ok ("docker-compose.yml", env_file))

/-- The local variable `env_content` of `create_or_use_env_file`
(the f-string on lines 157-162). -/
def env_content (nordvpn_username nordvpn_password : String) : String :=
  "\nNORDVPN_USERNAME=" ++ nordvpn_username
    ++ "\nNORDVPN_PASSWORD=" ++ nordvpn_password
    ++ "\nOPENVPN_USERNAME=" ++ nordvpn_username
    ++ "\nOPENVPN_PASSWORD=" ++ nordvpn_password ++ "\n"

/-- `create_or_use_env_file(env_file, nordvpn_username, nordvpn_password)`
(multivpn.py lines 145-165). `existing` is the file state at `env_file`
(`some content` when `os.path.exists` is true). The result is the file
state afterwards, or the raised `ValueError`. -/
def create_or_use_env_file (existing : Option String)
    (nordvpn_username nordvpn_password : String) : Except PyError (Option String) :=
  match existing with
  | some content => .ok (some content)
  | none =>
    if nordvpn_username.length = 0 || nordvpn_password.length = 0 then
      .error (.valueError "Username and password must be provided to create a new .env file.")
    else
      .ok (some (env_content nordvpn_username nordvpn_password))

/-- Per-connection lines printed by `display_proxy_info`
(loop on lines 192-197). -/
def display_proxy_info_loop : Nat → List String
  | 0 => []
  | n + 1 =>
    display_proxy_info_loop n ++
      let i := n + 1
      let http_port := 8888 + i
      let socks5_port := 1080 + i
      ["VPN Connection " ++ toString i ++ ":",
       "  HTTP Proxy: http://localhost:" ++ toString http_port,
       "  SOCKS5 Proxy: socks5://localhost:" ++ toString socks5_port]

/-- `display_proxy_info(num_connections)` (multivpn.py lines 187-198),
as the ordered list of printed lines. -/
def display_proxy_info (num_connections : Nat) : List String :=
  ["\n--- Proxy Information ---",
   "You can use the following addresses as proxies on your host machine:",
   "Note: Ensure the VPN-Proxy containers are running."]
  ++ display_proxy_info_loop num_connections
  ++ ["-------------------------"]

/-- Filesystem state touched by the opt-in cleanup block: whether the
docker-compose file and the env file exist, and which
`chrome_profile_i` directories exist (by index). -/
structure FsState where
  composeExists : Bool
  envExists : Bool
  profiles : List Nat
  deriving DecidableEq, Repr

/-- `os.remove` on a path whose presence is `present`: removes it, or
raises `FileNotFoundError` when absent. -/
def os_remove (present : Bool) : Except PyError Bool :=
  if present then .ok false
  else .error (.fileNotFoundError "No such file or directory")

/-- `os.remove` wrapped in `try .. except FileNotFoundError: pass`
(lines 293-303): a missing file leaves the state unchanged. -/
def try_remove (present : Bool) : Except PyError Bool :=
  match os_remove present with
  | .ok b => .ok b
  | .error (.fileNotFoundError _) => .ok present
  | .error e => .error e

/-- The subprocess call rm -rf on profile_dir: removes the directory
with index `i`; succeeds whether or not it exists. -/
def rm_rf (profiles : List Nat) (i : Nat) : List Nat :=
  profiles.filter fun j => j ≠ i

/-- The `for i in range(1, num_connections + 1)` deletion loop over the
`chrome_profile_i` directories (lines 305-313). -/
def cleanup_profiles (profiles : List Nat) : Nat → List Nat
  | 0 => profiles
  | n + 1 => rm_rf (cleanup_profiles profiles n) (n + 1)

/-- The opt-in cleanup block of `__main__` (lines 291-313): delete the
manifest file, the env file and the profile directories; `FileNotFoundError`
is passed over and `rm -rf` failures are only printed, so the block itself
raises nothing. -/
def cleanup_block (num_connections : Nat) (s : FsState) : Except PyError FsState := do
  let c ← try_remove s.composeExists
  let e ← try_remove s.envExists
  .ok { composeExists := c
        envExists := e
        profiles := cleanup_profiles s.profiles num_connections }

/-- Observable calls made by the `try/finally` part of `__main__`. -/
inductive Event where
  | manifestWritten (content : String)
  | startInvoked (config_file : String)
  | proxyInfoShown (n : Nat)
  | browserOpened (i : Nat)
  | stopInvoked (config_file : String)
  | cleanupRan
  deriving DecidableEq, Repr

/-- How the `try/finally` part of `__main__` terminates. -/
inductive Outcome where
  | finished
  | exited (code : Nat)
  | raised (e : PyError)
  deriving DecidableEq, Repr

/-- Events of the manifest write effect. -/
def writeEvents : Option String → List Event
  | none => []
  | some content => [.manifestWritten content]

/-- Browser windows opened by the loop on lines 275-278 (one per slot,
each using the HTTP proxy port of its slot; failures are caught inside
`open_browser_with_proxy`). -/
def browsersOpened : Nat → List Event
  | 0 => []
  | n + 1 => browsersOpened n ++ [.browserOpened (n + 1)]

/-- The `try: ... finally: ...` block of `__main__` (multivpn.py lines
256-313). Inputs beyond those of the generator: `start_ok` is the exit status of
`docker-compose up -d`; `open_browsers` and `cleanup_answer` the two
prompt answers; `session_interrupt` models an exception raised at the
blocking `input` on line 282 (`none` = plain Enter); `fs` the filesystem
state seen by the cleanup block. Returns the trace of calls and the way
the block terminates. When `generate_combined_docker_compose` raises, the
name `config_file` was never bound, so the `finally` block raises
`NameError` while evaluating the argument of `stop_vpn_connections` —
before that function is ever invoked. When generation succeeds,
`stop_vpn_connections` is invoked unconditionally (its own failures are
caught inside it, lines 177-185). -/
def main_try_finally (num_connections : Nat) (method_choice : String)
    (server_locations : List String) (env_file : String) (openvpn_config_dir : String)
    (d : DirState) (local_ip : Nat → String) (pick : Nat → Nat)
    (start_ok : Bool) (open_browsers : String) (session_interrupt : Option PyError)
    (cleanup_answer : String) (_fs : FsState) : List Event × Outcome :=
  match generate_combined_docker_compose num_connections method_choice server_locations
      env_file openvpn_config_dir d local_ip pick with
  | (w, .error _) =>
    (writeEvents w, .raised (.nameError "name config_file is not defined"))
  | (w, .ok (config_file, _env_file2)) =>
    let pre := writeEvents w ++ [Event.startInvoked config_file]
    let body : List Event × Outcome :=
      if start_ok then
        let be := [Event.proxyInfoShown num_connections]
          ++ (if open_browsers = "yes" then browsersOpened num_connections else [])
        match session_interrupt with
        | none => (be, .finished)
        | some e => (be, .raised e)
      else ([], .exited 1)
    let fin := Event.stopInvoked config_file ::
      (if cleanup_answer = "yes" then [Event.cleanupRan] else [])
    (pre ++ body.1 ++ fin, body.2)

/-! ### Helper lemmas -/

theorem string_length_eq_zero_iff (s : String) : s.length = 0 ↔ s = "" := by
  constructor
  · intro h
    cases s with
    | mk data =>
      simp only [String.length] at h
      cases List.length_eq_zero.mp h
      rfl
  · intro h
    subst h
    rfl

theorem choose_random_file_ok_mem {files : List String} {pfx : Option String}
    {pick : Nat} {f : String}
    (h : choose_random_file (.ok files) pfx pick = some f) :
    f ∈ matching_files files pfx := by
  have h' : (if (matching_files files pfx).isEmpty then (none : Option String)
      else (matching_files files pfx)[pick % (matching_files files pfx).length]?) =
        some f := h
  by_cases he : (matching_files files pfx).isEmpty = true
  · rw [if_pos he] at h'
    exact absurd h' (by simp)
  · rw [if_neg he] at h'
    exact List.getElem?_mem h'

theorem choose_random_file_empty {files : List String} {pfx : Option String}
    {pick : Nat} (h : matching_files files pfx = []) :
    choose_random_file (.ok files) pfx pick = none := by
  show (if (matching_files files pfx).isEmpty then (none : Option String)
    else (matching_files files pfx)[pick % (matching_files files pfx).length]?) = none
  rw [if_pos (by rw [h]; rfl)]

theorem generate_openvpn_proxy_service_ok {vpn_number : Nat} {server_location : String}
    {openvpn_config_dir : String} {d : DirState} {local_ip : String} {pick : Nat}
    {env_file : String} {s : OpenvpnProxyService}
    (h : generate_openvpn_proxy_service vpn_number server_location openvpn_config_dir d
      local_ip pick env_file = .ok s) :
    d.pathExists = true ∧ d.isDir = true ∧
      s.vpn_number = vpn_number ∧ s.http_proxy_port = 8888 + vpn_number ∧
      choose_random_file d.listing (location_pfx server_location) pick =
        some s.openvpn_config_file := by
  unfold generate_openvpn_proxy_service at h
  split at h
  · exact absurd h (by simp)
  · rename_i hpe
    split at h
    · exact absurd h (by simp)
    · rename_i hdir
      split at h
      · exact absurd h (by simp)
      · rename_i f hchoose
        split at h
        · exact absurd h (by simp)
        · injection h with h
          subst h
          exact ⟨Bool.ne_false_iff.mp hpe, Bool.ne_false_iff.mp hdir, rfl, rfl, hchoose⟩

theorem choose_random_file_some {listing : ListDirResult} {pfx : Option String}
    {pick : Nat} {f : String} (h : choose_random_file listing pfx pick = some f) :
    ∃ files, listing = .ok files ∧ f ∈ matching_files files pfx := by
  cases listing with
  | ok files => exact ⟨files, rfl, choose_random_file_ok_mem h⟩
  | fileNotFound => exact absurd h (by simp [choose_random_file])
  | otherError msg => exact absurd h (by simp [choose_random_file])

theorem compose_services_loop_ok (step : Nat → Except PyError ServiceBlock) :
    ∀ (n : Nat) (l : List ServiceBlock), compose_services_loop step n = .ok l →
      l.length = n ∧ ∀ j, j < n → ∃ b, l[j]? = some b ∧ step (j + 1) = .ok b := by
  intro n
  induction n with
  | zero =>
    intro l h
    injection h with h
    subst h
    exact ⟨rfl, fun j hj => (Nat.not_lt_zero j hj).elim⟩
  | succ n ih =>
    intro l h
    simp only [compose_services_loop] at h
    split at h
    · exact absurd h (by simp)
    · rename_i acc hacc
      split at h
      · exact absurd h (by simp)
      · rename_i s hs
        injection h with h
        subst h
        obtain ⟨hlen, hsteps⟩ := ih acc hacc
        refine ⟨by simp [hlen], fun j hj => ?_⟩
        rcases Nat.lt_succ_iff_lt_or_eq.mp hj with hj' | hj'
        · obtain ⟨b, hb, hstep⟩ := hsteps j hj'
          refine ⟨b, ?_, hstep⟩
          rw [List.getElem?_append_left (by rw [hlen]; exact hj')]
          exact hb
        · subst hj'
          refine ⟨s, ?_, hs⟩
          rw [← hlen, List.getElem?_concat_length]

/-! ### Claims about the credentials file handler -/

/-- C3: for every pre-existing credentials file content and every supplied
username and password (including empty ones), `create_or_use_env_file`
leaves the file content unchanged and ignores the supplied credentials. -/
theorem existing_env_file_unchanged (content nordvpn_username nordvpn_password : String) :
    create_or_use_env_file (some content) nordvpn_username nordvpn_password =
      .ok (some content) := rfl

/-- C9: when the credentials file already exists, `create_or_use_env_file`
returns normally (never raises) for every supplied username and password,
empty ones included; the non-empty check only guards the creation path. -/
theorem existing_env_file_never_raises (content nordvpn_username nordvpn_password : String) :
    ∃ r, create_or_use_env_file (some content) nordvpn_username nordvpn_password = .ok r :=
  ⟨some content, rfl⟩

/-- C6: when the credentials file is absent, `create_or_use_env_file` raises
exactly when the supplied username or password is empty; otherwise it creates
the file with the vendor-specific keys and the generic aliases set to the
supplied values. -/
theorem env_file_creation_check (nordvpn_username nordvpn_password : String) :
    ((∃ e, create_or_use_env_file none nordvpn_username nordvpn_password = .error e) ↔
      (nordvpn_username = "" ∨ nordvpn_password = "")) ∧
    (nordvpn_username ≠ "" → nordvpn_password ≠ "" →
      create_or_use_env_file none nordvpn_username nordvpn_password =
        .ok (some (env_content nordvpn_username nordvpn_password))) := by
  have hval : create_or_use_env_file none nordvpn_username nordvpn_password =
      if nordvpn_username.length = 0 || nordvpn_password.length = 0 then
        .error (.valueError "Username and password must be provided to create a new .env file.")
      else .ok (some (env_content nordvpn_username nordvpn_password)) := rfl
  have hcond : (decide (nordvpn_username.length = 0) ||
      decide (nordvpn_password.length = 0)) = true ↔
      (nordvpn_username = "" ∨ nordvpn_password = "") := by
    simp [string_length_eq_zero_iff]
  by_cases h : nordvpn_username = "" ∨ nordvpn_password = ""
  · rw [hval, if_pos (hcond.mpr h)]
    constructor
    · exact ⟨fun _ => h, fun _ => ⟨_, rfl⟩⟩
    · intro hu hp
      rcases h with h | h
      · exact absurd h hu
      · exact absurd h hp
  · rw [hval, if_neg (fun hc => h (hcond.mp hc))]
    constructor
    · constructor
      · rintro ⟨e, he⟩
        exact Except.noConfusion he
      · intro hh
        exact absurd hh h
    · intro _ _
      rfl

/-- C6 witness: with username "user" and password "pass" the file is
created with all four key-value pairs. -/
theorem env_file_creation_check_witness :
    create_or_use_env_file none "user" "pass" = .ok (some (env_content "user" "pass")) :=
  (env_file_creation_check "user" "pass").2 (by decide) (by decide)

/-! ### Claims about configuration-file selection -/

/-- C10: `choose_random_file` is total over its error cases: for every
directory listing, filter and random pick it returns either a file of the
directory that satisfies the filter (a member of `matching_files`), or
`none`; it never propagates an exception. -/
theorem choose_random_file_total (listing : ListDirResult) (pfx : Option String)
    (pick : Nat) :
    choose_random_file listing pfx pick = none ∨
    ∃ files f, listing = .ok files ∧ choose_random_file listing pfx pick = some f ∧
      f ∈ files ∧ f ∈ matching_files files pfx := by
  cases listing with
  | fileNotFound => exact Or.inl rfl
  | otherError msg => exact Or.inl rfl
  | ok files =>
    cases hc : choose_random_file (.ok files) pfx pick with
    | none => exact Or.inl rfl
    | some f =>
      have hm : f ∈ matching_files files pfx := choose_random_file_ok_mem hc
      exact Or.inr ⟨files, f, rfl, rfl, List.mem_of_mem_filter hm, hm⟩

/-- C4: configuration-file selection with location "any" considers all files
of the directory with no name restriction; with any other location only
files whose name starts with that value are candidates, every successful
`generate_openvpn_proxy_service` picks its file from those candidates, and
when zero files match the generator raises instead of proceeding. -/
theorem location_filter_behavior (all_files : List String) (server_location : String) :
    (server_location = "any" →
      matching_files all_files (location_pfx server_location) = all_files) ∧
    (server_location ≠ "any" →
      ∀ f ∈ matching_files all_files (location_pfx server_location),
        startswith f server_location = true) ∧
    (∀ (vpn_number : Nat) (openvpn_config_dir : String) (d : DirState)
        (local_ip : String) (pick : Nat) (env_file : String) (s : OpenvpnProxyService),
      d.listing = .ok all_files →
      generate_openvpn_proxy_service vpn_number server_location openvpn_config_dir d
        local_ip pick env_file = .ok s →
      s.openvpn_config_file ∈ matching_files all_files (location_pfx server_location)) ∧
    (∀ (vpn_number : Nat) (openvpn_config_dir : String) (d : DirState)
        (local_ip : String) (pick : Nat) (env_file : String),
      d.pathExists = true → d.isDir = true → d.listing = .ok all_files →
      matching_files all_files (location_pfx server_location) = [] →
      ∃ e, generate_openvpn_proxy_service vpn_number server_location openvpn_config_dir d
        local_ip pick env_file = .error e) := by
  refine ⟨?_, ?_, ?_, ?_⟩
  · intro hany
    subst hany
    unfold location_pfx
    rw [if_neg (by simp)]
    unfold matching_files
    exact List.filter_true all_files
  · intro hother f hf
    unfold location_pfx at hf
    rw [if_pos hother] at hf
    exact (List.mem_filter.mp hf).2
  · intro vpn_number openvpn_config_dir d local_ip pick env_file s hlist hok
    obtain ⟨-, -, -, -, hchoose⟩ := generate_openvpn_proxy_service_ok hok
    rw [hlist] at hchoose
    exact choose_random_file_ok_mem hchoose
  · intro vpn_number openvpn_config_dir d local_ip pick env_file hex hdir hlist hempty
    refine ⟨.fileNotFoundError
      ("No OpenVPN configuration file found for location " ++ server_location ++ "."), ?_⟩
    have hnone : choose_random_file d.listing (location_pfx server_location) pick = none := by
      rw [hlist]
      exact choose_random_file_empty hempty
    unfold generate_openvpn_proxy_service
    rw [hex, hdir, hnone]
    rfl

/-- C4 witness: with the single file "us1.ovpn" and location "de" nothing
matches and the generator raises. -/
theorem location_filter_behavior_witness :
    ∃ e, generate_openvpn_proxy_service 1 "de" "/etc/openvpn/ovpn_tcp"
      ⟨true, true, .ok ["us1.ovpn"]⟩ "10.0.0.5" 0 ".env-nordvpn" = .error e :=
  (location_filter_behavior ["us1.ovpn"] "de").2.2.2 1 "/etc/openvpn/ovpn_tcp"
    ⟨true, true, .ok ["us1.ovpn"]⟩ "10.0.0.5" 0 ".env-nordvpn" rfl rfl rfl (by decide)

/-! ### Cleanup idempotence -/

theorem try_remove_ok (present : Bool) : try_remove present = .ok false := by
  cases present <;> rfl

theorem cleanup_profiles_filter (ps : List Nat) :
    ∀ n, cleanup_profiles ps n = ps.filter fun j => decide ¬(1 ≤ j ∧ j ≤ n) := by
  intro n
  induction n with
  | zero =>
    refine (List.filter_eq_self.mpr fun a _ => ?_).symm
    simp only [decide_eq_true_eq]
    omega
  | succ n ih =>
    show rm_rf (cleanup_profiles ps n) (n + 1) = _
    rw [ih]
    unfold rm_rf
    rw [List.filter_filter]
    refine List.filter_congr fun a _ => ?_
    rw [Bool.eq_iff_iff]
    simp only [Bool.and_eq_true, decide_eq_true_eq]
    omega

theorem cleanup_profiles_idem (ps : List Nat) (n : Nat) :
    cleanup_profiles (cleanup_profiles ps n) n = cleanup_profiles ps n := by
  rw [cleanup_profiles_filter, cleanup_profiles_filter, List.filter_filter]
  exact List.filter_congr fun a _ => Bool.and_self _

theorem cleanup_block_eq (c e : Bool) (ps : List Nat) (n : Nat) :
    cleanup_block n ⟨c, e, ps⟩ = .ok ⟨false, false, cleanup_profiles ps n⟩ := by
  cases c <;> cases e <;> rfl

/-- C7: the opt-in cleanup step is idempotent and total: on every filesystem
state (files or profile directories may already be absent) it completes
without raising, and running it a second time gives the same state and again
raises nothing. -/
theorem cleanup_block_idempotent (num_connections : Nat) (s : FsState) :
    ∃ s1, cleanup_block num_connections s = .ok s1 ∧
      cleanup_block num_connections s1 = .ok s1 := by
  obtain ⟨c, e, ps⟩ := s
  refine ⟨⟨false, false, cleanup_profiles ps num_connections⟩,
    cleanup_block_eq c e ps num_connections, ?_⟩
  rw [cleanup_block_eq, cleanup_profiles_idem]

/-! ### Manifest generation -/

theorem compose_service_step_2_ok {server_locations : List String}
    {env_file openvpn_config_dir : String} {d : DirState} {local_ip : Nat → String}
    {pick : Nat → Nat} {i : Nat} {b : ServiceBlock}
    (hb : compose_service_step "2" server_locations env_file openvpn_config_dir d
      local_ip pick i = .ok b) :
    ∃ loc s, server_locations[i - 1]? = some loc ∧
      generate_openvpn_proxy_service i loc openvpn_config_dir d (local_ip i) (pick i)
        env_file = .ok s ∧
      b = .openvpnProxy s := by
  have hb' : (match server_locations[i - 1]? with
      | none => (.error (.indexError "list index out of range") : Except PyError ServiceBlock)
      | some loc =>
        (generate_openvpn_proxy_service i loc openvpn_config_dir d (local_ip i) (pick i)
          env_file).map ServiceBlock.openvpnProxy) = .ok b := hb
  cases hsl : server_locations[i - 1]? with
  | none =>
    rw [hsl] at hb'
    exact absurd hb' (by simp)
  | some loc =>
    rw [hsl] at hb'
    have hb2 : Except.map ServiceBlock.openvpnProxy
        (generate_openvpn_proxy_service i loc openvpn_config_dir d (local_ip i) (pick i)
          env_file) = .ok b := hb'
    cases hg : generate_openvpn_proxy_service i loc openvpn_config_dir d (local_ip i)
        (pick i) env_file with
    | error e =>
      rw [hg] at hb2
      exact absurd hb2 (by simp [Except.map])
    | ok s =>
      rw [hg] at hb2
      simp only [Except.map] at hb2
      injection hb2 with hb2
      exact ⟨loc, s, rfl, hg, hb2.symm⟩

/-- C5: for method 2, when the configuration directory is missing, is not a
directory, or has no file matching any requested location value, manifest
generation raises before the file write, so no manifest (not even a partial
one) is produced. -/
theorem method2_failure_writes_no_manifest (num_connections : Nat)
    (server_locations : List String) (env_file openvpn_config_dir : String)
    (d : DirState) (local_ip : Nat → String) (pick : Nat → Nat)
    (hN : 1 ≤ num_connections)
    (hfail : d.pathExists = false ∨ d.isDir = false ∨
      (∀ loc ∈ server_locations, ∀ files, d.listing = .ok files →
        matching_files files (location_pfx loc) = [])) :
    (generate_combined_docker_compose num_connections "2" server_locations env_file
      openvpn_config_dir d local_ip pick).1 = none ∧
    ∃ e, (generate_combined_docker_compose num_connections "2" server_locations env_file
      openvpn_config_dir d local_ip pick).2 = .error e := by
  have hstep : ∀ b, ¬ compose_service_step "2" server_locations env_file openvpn_config_dir
      d local_ip pick 1 = .ok b := by
    intro b hb
    obtain ⟨loc, s, hsl, hg, -⟩ := compose_service_step_2_ok hb
    obtain ⟨hex, hdir, -, -, hchoose⟩ := generate_openvpn_proxy_service_ok hg
    rcases hfail with hfail | hfail | hfail
    · rw [hex] at hfail
      exact Bool.noConfusion hfail
    · rw [hdir] at hfail
      exact Bool.noConfusion hfail
    · obtain ⟨files, hls, hmem⟩ := choose_random_file_some hchoose
      rw [hfail loc (List.getElem?_mem hsl) files hls] at hmem
      exact List.not_mem_nil _ hmem
  have herr : ∃ e, compose_services num_connections "2" server_locations env_file
      openvpn_config_dir d local_ip pick = .error e := by
    cases hres : compose_services num_connections "2" server_locations env_file
        openvpn_config_dir d local_ip pick with
    | ok l =>
      obtain ⟨-, hsteps⟩ := compose_services_loop_ok _ _ _ hres
      obtain ⟨b, -, hstep1⟩ := hsteps 0 (by omega)
      exact absurd hstep1 (hstep b)
    | error e => exact ⟨e, rfl⟩
  obtain ⟨e, he⟩ := herr
  unfold generate_combined_docker_compose
  rw [he]
  exact ⟨rfl, e, rfl⟩

/-- C5 witness: one connection, method 2, configuration directory absent:
nothing is written and an error is raised. -/
theorem method2_failure_writes_no_manifest_witness :
    (generate_combined_docker_compose 1 "2" ["any"] ".env-nordvpn" "/etc/openvpn/ovpn_tcp"
      ⟨false, false, .fileNotFound⟩ (fun _ => "10.0.0.5") (fun _ => 0)).1 = none ∧
    ∃ e, (generate_combined_docker_compose 1 "2" ["any"] ".env-nordvpn"
      "/etc/openvpn/ovpn_tcp" ⟨false, false, .fileNotFound⟩ (fun _ => "10.0.0.5")
      (fun _ => 0)).2 = .error e :=
  method2_failure_writes_no_manifest 1 ["any"] ".env-nordvpn" "/etc/openvpn/ovpn_tcp"
    ⟨false, false, .fileNotFound⟩ (fun _ => "10.0.0.5") (fun _ => 0)
    (by decide) (Or.inl rfl)

/-- C1 (amended): for N in 1..10 and method 1 or 2, a successful generation
yields exactly N service blocks; block i of method 1 embeds exactly the port
pair (8888+i, 1080+i), block i of method 2 embeds only the HTTP port 8888+i;
in both cases no embedded port collides across slots. -/
theorem manifest_blocks_and_ports (num_connections : Nat) (method_choice : String)
    (server_locations : List String) (env_file openvpn_config_dir : String)
    (d : DirState) (local_ip : Nat → String) (pick : Nat → Nat)
    (blocks : List ServiceBlock)
    (h1 : 1 ≤ num_connections) (h10 : num_connections ≤ 10)
    (hm : method_choice = "1" ∨ method_choice = "2")
    (hok : compose_services num_connections method_choice server_locations env_file
      openvpn_config_dir d local_ip pick = .ok blocks) :
    blocks.length = num_connections ∧
    (∀ j, j < num_connections → ∃ b, blocks[j]? = some b ∧
      b.embeddedPorts =
        if method_choice = "1" then [8888 + (j + 1), 1080 + (j + 1)]
        else [8888 + (j + 1)]) ∧
    (∀ j k bj bk, j < num_connections → k < num_connections → j ≠ k →
      blocks[j]? = some bj → blocks[k]? = some bk →
      ∀ p ∈ bj.embeddedPorts, p ∉ bk.embeddedPorts) := by
  obtain ⟨hlen, hsteps⟩ := compose_services_loop_ok _ _ _ hok
  have hport : ∀ j b, compose_service_step method_choice server_locations env_file
      openvpn_config_dir d local_ip pick (j + 1) = .ok b →
      b.embeddedPorts =
        if method_choice = "1" then [8888 + (j + 1), 1080 + (j + 1)]
        else [8888 + (j + 1)] := by
    intro j b hb
    rcases hm with hmc | hmc
    · subst hmc
      have hb' : (match server_locations[j]? with
          | none => (.error (.indexError "list index out of range") :
              Except PyError ServiceBlock)
          | some loc => .ok (.gluetun (generate_gluetun_service (j + 1) loc env_file))) =
            .ok b := hb
      cases hsl : server_locations[j]? with
      | none =>
        rw [hsl] at hb'
        exact absurd hb' (by simp)
      | some loc =>
        rw [hsl] at hb'
        have hb2 : Except.ok (ServiceBlock.gluetun
            (generate_gluetun_service (j + 1) loc env_file)) = .ok b := hb'
        injection hb2 with hb2
        subst hb2
        rw [if_pos rfl]
        rfl
    · subst hmc
      obtain ⟨loc, s, -, hg, hbs⟩ := compose_service_step_2_ok hb
      subst hbs
      obtain ⟨-, -, -, hhttp, -⟩ := generate_openvpn_proxy_service_ok hg
      rw [if_neg (by decide)]
      show [s.http_proxy_port] = _
      rw [hhttp]
  have hpart2 : ∀ j, j < num_connections → ∃ b, blocks[j]? = some b ∧
      b.embeddedPorts =
        if method_choice = "1" then [8888 + (j + 1), 1080 + (j + 1)]
        else [8888 + (j + 1)] := by
    intro j hj
    obtain ⟨b, hb, hstep⟩ := hsteps j hj
    exact ⟨b, hb, hport j b hstep⟩
  refine ⟨hlen, hpart2, ?_⟩
  have hmem : ∀ j b p, j < num_connections → blocks[j]? = some b →
      p ∈ b.embeddedPorts → p = 8888 + (j + 1) ∨ p = 1080 + (j + 1) := by
    intro j b p hj hb hp
    obtain ⟨b', hb', hports⟩ := hpart2 j hj
    rw [hb] at hb'
    injection hb' with hb'
    subst hb'
    by_cases hmc : method_choice = "1"
    · rw [if_pos hmc] at hports
      rw [hports] at hp
      simpa using hp
    · rw [if_neg hmc] at hports
      rw [hports] at hp
      simp at hp
      exact Or.inl hp
  intro j k bj bk hj hk hjk hbj hbk p hp hq
  rcases hmem j bj p hj hbj hp with h | h <;>
    rcases hmem k bk p hk hbk hq with h' | h' <;> omega

/-- C1 witness: two connections with method 1 give two blocks with port
pairs (8889, 1081) and (8890, 1082). -/
theorem manifest_blocks_and_ports_witness :
    ([ServiceBlock.gluetun ⟨1, "any", ".env-nordvpn", 8889, 1081⟩,
      ServiceBlock.gluetun ⟨2, "any", ".env-nordvpn", 8890, 1082⟩] :
        List ServiceBlock).length = 2 :=
  (manifest_blocks_and_ports 2 "1" ["any", "any"] ".env-nordvpn" "/etc/openvpn/ovpn_tcp"
    ⟨true, true, .ok []⟩ (fun _ => "") (fun _ => 0)
    [ServiceBlock.gluetun ⟨1, "any", ".env-nordvpn", 8889, 1081⟩,
     ServiceBlock.gluetun ⟨2, "any", ".env-nordvpn", 8890, 1082⟩]
    (by decide) (by decide) (Or.inl rfl) rfl).1

/-- C1 counterexample: with method 2 a generated block embeds only the HTTP
port 8888+i, not the pair (8888+i, 1080+i): for slot 1 the embedded ports
are [8889] and 1081 is absent. -/
theorem manifest_ports_method2_cex :
    compose_services 1 "2" ["any"] ".env-nordvpn" "/etc/openvpn/ovpn_tcp"
        ⟨true, true, .ok ["us1.ovpn"]⟩ (fun _ => "10.0.0.5") (fun _ => 0) =
      .ok [ServiceBlock.openvpnProxy
        ⟨1, "/etc/openvpn/ovpn_tcp", ".env-nordvpn", "us1.ovpn", "10.0.0.5/24", 8889⟩] ∧
    (ServiceBlock.openvpnProxy
        ⟨1, "/etc/openvpn/ovpn_tcp", ".env-nordvpn", "us1.ovpn", "10.0.0.5/24",
          8889⟩).embeddedPorts = [8889] ∧
    ([8889] : List Nat).contains 1081 = false :=
  ⟨rfl, rfl, rfl⟩

/-- C8: for the concrete input N=2 with method 1, the manifest has exactly
two service blocks with port pairs (8889, 1081) and (8890, 1082), and
`display_proxy_info 2` prints exactly those four endpoints and no others. -/
theorem example_two_connections_method1 :
    (compose_services 2 "1" ["any", "any"] ".env-nordvpn" "/etc/openvpn/ovpn_tcp"
        ⟨true, true, .ok []⟩ (fun _ => "") (fun _ => 0)).map
        (fun l => l.map ServiceBlock.embeddedPorts) =
      .ok [[8889, 1081], [8890, 1082]] ∧
    display_proxy_info 2 =
      ["\n--- Proxy Information ---",
       "You can use the following addresses as proxies on your host machine:",
       "Note: Ensure the VPN-Proxy containers are running.",
       "VPN Connection 1:",
       "  HTTP Proxy: http://localhost:8889",
       "  SOCKS5 Proxy: socks5://localhost:1081",
       "VPN Connection 2:",
       "  HTTP Proxy: http://localhost:8890",
       "  SOCKS5 Proxy: socks5://localhost:1082",
       "-------------------------"] :=
  ⟨rfl, rfl⟩

/-! ### Teardown on exit paths -/

/-- C2 at its failing input (code bug): when manifest generation raises
(here: method 2 with a missing configuration directory), the `finally`
block evaluates the never-bound name `config_file` and raises `NameError`,
so the trace is empty: `stop_vpn_connections` is never invoked on this
exit path, although the claim says teardown runs on every exit path after
generation is attempted. -/
theorem stop_not_invoked_when_generation_raises :
    main_try_finally 1 "2" ["any"] ".env-nordvpn" "/etc/openvpn/ovpn_tcp"
        ⟨false, false, .fileNotFound⟩ (fun _ => "10.0.0.5") (fun _ => 0)
        true "no" none "no" ⟨true, true, [1]⟩ =
      ([], .raised (.nameError "name config_file is not defined")) :=
  rfl

end MultiVPN
